import Mathlib

/-!
Verification of the MLB stats tool server (`src/mcp_mlb_statsapi/server.py`)
against its specification.

The external statistics provider (`statsapi` / `pybaseball`) is modelled as a
structure of oracle functions.  Each tool of the server is embedded as a pure
Lean function over such a provider; besides its return value it also yields
the ordered list of provider operations it performed (`POp`), so that claims
about which provider calls are or are not made can be stated.  Fallible paths
(Python exceptions) are embedded with `Except`; the try/except wrapped tools
return an `Option` result together with the list of diagnostic messages they
print.
-/

namespace MLBStats

/-- A team record as returned by the provider's team lookup
(`statsapi.lookup_team`). -/
structure Team where
  id : Nat
  name : String
  abbreviation : String
  deriving DecidableEq

/-- A game record as returned by the provider's schedule call
(`statsapi.schedule`).  `winning_pitcher` is optional: the source reads it
with `game.get("winning_pitcher", "N/A")`, so the key may be absent. -/
structure Game where
  game_id : Nat
  game_date : String
  home_id : Nat
  home_name : String
  home_score : Nat
  away_id : Nat
  away_name : String
  away_score : Nat
  status : String
  winning_team : String
  losing_team : String
  winning_pitcher : Option String
  deriving DecidableEq

/-- The per-game projection built by `get_daily_results`. -/
structure DailySummary where
  date : String
  home_team : String
  home_score : Nat
  away_team : String
  away_score : Nat
  winning_team : String
  losing_team : String
  MVP : String
  deriving DecidableEq

/-- The composite record built by `mlb_team_result`. -/
structure GameResult where
  scoring_plays : List String
  game_highlights : List String
  deriving DecidableEq

/-- Errors that can propagate out of a tool: the `IndexError` raised by
`teams[0]` on an empty list, or an exception raised by a provider call. -/
inductive PyErr where
  | indexOutOfRange
  | provider (msg : String)
  deriving DecidableEq

/-- A provider operation, recorded in the order the tools perform them. -/
inductive POp where
  | lookupTeam (name : String)
  | schedule (s e : String)
  | scheduleTeam (t : Nat) (s e : String)
  | scoringPlays (gamePk : Nat)
  | highlights (gamePk : Nat)
  | playerIdLookup (a1 : String) (a2 : Option String) (fz : Bool)
  deriving DecidableEq

/-- The external data provider, as a bundle of oracle functions.  The result
types `DF` (pandas data frame of `playerid_lookup`), `PInfo`
(`statsapi.lookup_player`) and `Pace` (`statsapi.game_pace`) are opaque to the
server's logic and left as type parameters.  Operations that the source wraps
in try/except (or calls where the claims concern failure) are `Except`. -/
structure Provider (DF PInfo Pace : Type) where
  lookup_team : String → List Team
  schedule : String → String → List Game
  schedule_team : Nat → String → String → List Game
  game_scoring_plays : Nat → Except String (List String)
  game_highlights : Nat → Except String (List String)
  playerid_lookup : String → Option String → Bool → DF
  lookup_player : String → Except String PInfo
  game_pace : Nat → Except String Pace

/-- Embedding of `find_games_by_team_id(games_data, team_id)`: linear scan,
first game whose `home_id` or `away_id` equals `team_id`, else `None`. -/
def find_games_by_team_id : List Game → Nat → Option Game
  | [], _ => none
  | game :: rest, team_id =>
    if game.home_id == team_id || game.away_id == team_id then some game
    else find_games_by_team_id rest team_id

/-- Embedding of `look_up_team(team_name)`: queries the provider for active
teams and returns `teams[0]`, which raises an index-out-of-range error when
the provider returned an empty list.  The second component is the list of
provider operations performed. -/
def look_up_team {DF PInfo Pace : Type} (P : Provider DF PInfo Pace)
    (team_name : String) : Except PyErr Team × List POp :=
  match P.lookup_team team_name with
  | [] => (Except.error PyErr.indexOutOfRange, [POp.lookupTeam team_name])
  | t :: _ => (Except.ok t, [POp.lookupTeam team_name])

/-- The fixed field mapping from a `"Final"` game to its `DailySummary`,
as built inside the loop of `get_daily_results`. -/
def dailySummaryOf (game : Game) : DailySummary :=
  { date := game.game_date
    home_team := game.home_name
    home_score := game.home_score
    away_team := game.away_name
    away_score := game.away_score
    winning_team := game.winning_team
    losing_team := game.losing_team
    MVP := game.winning_pitcher.getD "N/A" }

/-- Embedding of `get_daily_results(date=None)`.  `today` stands for the
string `datetime.today().strftime('%Y-%m-%d')` evaluated at call time; an
absent date defaults to it.  The imperative accumulation loop of the source
is embedded as a left fold appending to the accumulator. -/
def get_daily_results {DF PInfo Pace : Type} (P : Provider DF PInfo Pace)
    (today : String) (date : Option String) : List DailySummary × List POp :=
  let d := date.getD today
  let sched := P.schedule d d
  (sched.foldl
      (fun results game =>
        if game.status == "Final" then results ++ [dailySummaryOf game]
        else results)
      [],
   [POp.schedule d d])

/-- Embedding of `get_mlb_schedule(start_date=None, end_date=None,
team_id=None)`.  `today` stands for the current calendar date string
evaluated at call time; each absent bound defaults to it.  With a team id
the provider is queried with the team filter, without one it is queried
unfiltered. -/
def get_mlb_schedule {DF PInfo Pace : Type} (P : Provider DF PInfo Pace)
    (today : String) (start_date end_date : Option String)
    (team_id : Option Nat) : List Game × List POp :=
  let sd := start_date.getD today
  let ed := end_date.getD today
  match team_id with
  | some t => (P.schedule_team t sd ed, [POp.scheduleTeam t sd ed])
  | none => (P.schedule sd ed, [POp.schedule sd ed])

/-- Embedding of `mlb_team_result(team_name, date=None)`: resolve the team
(fail-fast), fetch the team-filtered schedule for the date, match the first
game of the team, then aggregate that game's scoring plays and highlights.
Provider failures in the two aggregation calls propagate, as the source does
not wrap them. -/
def mlb_team_result {DF PInfo Pace : Type} (P : Provider DF PInfo Pace)
    (today team_name : String) (date : Option String) :
    Except PyErr (Option GameResult) × List POp :=
  match look_up_team P team_name with
  | (Except.error e, ops) => (Except.error e, ops)
  | (Except.ok teamInfo, ops1) =>
    let sched := get_mlb_schedule P today date date (some teamInfo.id)
    let ops := ops1 ++ sched.2
    match find_games_by_team_id sched.1 teamInfo.id with
    | some game =>
      match P.game_scoring_plays game.game_id with
      | Except.error e =>
        (Except.error (PyErr.provider e), ops ++ [POp.scoringPlays game.game_id])
      | Except.ok sp =>
        match P.game_highlights game.game_id with
        | Except.error e =>
          (Except.error (PyErr.provider e),
           ops ++ [POp.scoringPlays game.game_id, POp.highlights game.game_id])
        | Except.ok hl =>
          (Except.ok (some { scoring_plays := sp, game_highlights := hl }),
           ops ++ [POp.scoringPlays game.game_id, POp.highlights game.game_id])
    | none => (Except.ok none, ops)

/-- Embedding of `player_id_lookup(last_name=None, first_name=None,
fuzzy=False)`.  The four branches of the source dispatch solely on which
names are present; each hardcodes its own fuzzy flag and the `fuzzy`
parameter is never read.  The second component records the provider call
made, if any. -/
def player_id_lookup {DF PInfo Pace : Type} (P : Provider DF PInfo Pace)
    (last_name first_name : Option String) (fuzzy : Bool) :
    Option DF × List POp :=
  match last_name, first_name with
  | some l, some f =>
    (some (P.playerid_lookup l (some f) false), [POp.playerIdLookup l (some f) false])
  | some l, none =>
    (some (P.playerid_lookup l none true), [POp.playerIdLookup l none true])
  | none, some f =>
    (some (P.playerid_lookup f none true), [POp.playerIdLookup f none true])
  | none, none => (none, [])

/-- Embedding of `get_player_info(lookup_value)`: try/except wrapper around
`statsapi.lookup_player`.  The second component is the list of diagnostic
messages printed. -/
def get_player_info {DF PInfo Pace : Type} (P : Provider DF PInfo Pace)
    (lookup_value : String) : Option PInfo × List String :=
  match P.lookup_player lookup_value with
  | Except.ok r => (some r, [])
  | Except.error e => (none, ["Error retrieving player information: " ++ e])

/-- Embedding of `get_game_highlights(game_id)`: try/except wrapper around
`statsapi.game_highlights`. -/
def get_game_highlights {DF PInfo Pace : Type} (P : Provider DF PInfo Pace)
    (game_id : Nat) : Option (List String) × List String :=
  match P.game_highlights game_id with
  | Except.ok h => (some h, [])
  | Except.error e => (none, ["Error retrieving game highlights: " ++ e])

/-- Embedding of `game_pace(season)`: try/except wrapper around
`statsapi.game_pace`. -/
def game_pace {DF PInfo Pace : Type} (P : Provider DF PInfo Pace)
    (season : Nat) : Option Pace × List String :=
  match P.game_pace season with
  | Except.ok r => (some r, [])
  | Except.error e => (none, ["Error calling statsapi.game_pace: " ++ e])

/-! ### Concrete fixtures used by the witness theorems -/

/-- A sample team record. -/
def teamA : Team :=
  { id := 119, name := "Los Angeles Dodgers", abbreviation := "LAD" }

/-- A sample completed game involving `teamA` as the home team. -/
def gameA : Game :=
  { game_id := 745
    game_date := "2024-07-01"
    home_id := 119
    home_name := "Los Angeles Dodgers"
    home_score := 5
    away_id := 137
    away_name := "San Francisco Giants"
    away_score := 3
    status := "Final"
    winning_team := "Los Angeles Dodgers"
    losing_team := "San Francisco Giants"
    winning_pitcher := some "Smith" }

/-- A sample in-progress game, excluded by the daily summary filter. -/
def gameB : Game :=
  { game_id := 746
    game_date := "2024-07-01"
    home_id := 141
    home_name := "Toronto Blue Jays"
    home_score := 1
    away_id := 147
    away_name := "New York Yankees"
    away_score := 1
    status := "In Progress"
    winning_team := ""
    losing_team := ""
    winning_pitcher := none }

/-- A provider whose calls all succeed. -/
def provTest : Provider Nat String String :=
  { lookup_team := fun _ => [teamA]
    schedule := fun _ _ => [gameA, gameB]
    schedule_team := fun _ _ _ => [gameA]
    game_scoring_plays := fun _ => Except.ok ["play1"]
    game_highlights := fun _ => Except.ok ["hl1"]
    playerid_lookup := fun _ _ _ => 0
    lookup_player := fun _ => Except.ok "info"
    game_pace := fun _ => Except.ok "pace" }

/-- A provider whose team lookup comes back empty. -/
def provEmpty : Provider Nat String String :=
  { lookup_team := fun _ => []
    schedule := fun _ _ => []
    schedule_team := fun _ _ _ => []
    game_scoring_plays := fun _ => Except.ok []
    game_highlights := fun _ => Except.ok []
    playerid_lookup := fun _ _ _ => 0
    lookup_player := fun _ => Except.ok "info"
    game_pace := fun _ => Except.ok "pace" }

/-- A provider whose wrapped calls all raise. -/
def provFail : Provider Nat String String :=
  { lookup_team := fun _ => [teamA]
    schedule := fun _ _ => []
    schedule_team := fun _ _ _ => []
    game_scoring_plays := fun _ => Except.error "boom"
    game_highlights := fun _ => Except.error "boom"
    playerid_lookup := fun _ _ _ => 0
    lookup_player := fun _ => Except.error "boom"
    game_pace := fun _ => Except.error "boom" }

/-- A provider that resolves the team but has no games scheduled for it. -/
def provNoGame : Provider Nat String String :=
  { lookup_team := fun _ => [teamA]
    schedule := fun _ _ => []
    schedule_team := fun _ _ _ => []
    game_scoring_plays := fun _ => Except.ok []
    game_highlights := fun _ => Except.ok []
    playerid_lookup := fun _ _ _ => 0
    lookup_player := fun _ => Except.ok "info"
    game_pace := fun _ => Except.ok "pace" }

/-- Does a provider operation belong to the schedule fetcher? -/
def isScheduleOp : POp → Bool
  | POp.schedule _ _ => true
  | POp.scheduleTeam _ _ _ => true
  | _ => false

/-- Does a provider operation belong to the result aggregator
(scoring plays / highlights)? -/
def isAggregatorOp : POp → Bool
  | POp.scoringPlays _ => true
  | POp.highlights _ => true
  | _ => false

/-! ### Claim theorems -/

/-- C1: for every non-empty sequence of team records returned by the
provider's team lookup, `look_up_team` returns the first element of that
sequence unchanged. -/
theorem look_up_team_returns_first {DF PInfo Pace : Type}
    (P : Provider DF PInfo Pace) (team_name : String) (t : Team)
    (rest : List Team) (h : P.lookup_team team_name = t :: rest) :
    (look_up_team P team_name).1 = Except.ok t := by
  simp [look_up_team, h]

/-- Witness for C1: a concrete provider returning one team. -/
theorem look_up_team_returns_first_witness :
    provTest.lookup_team "Los Angeles Dodgers" = [teamA] ∧
    (look_up_team provTest "Los Angeles Dodgers").1 = Except.ok teamA :=
  ⟨rfl, look_up_team_returns_first provTest "Los Angeles Dodgers" teamA [] rfl⟩

/-- C2: whenever the provider's team lookup returns an empty sequence,
`look_up_team` raises an index-out-of-range error; it never returns a
successful (let alone null) value in that case. -/
theorem look_up_team_empty_raises {DF PInfo Pace : Type}
    (P : Provider DF PInfo Pace) (team_name : String)
    (h : P.lookup_team team_name = []) :
    (look_up_team P team_name).1 = Except.error PyErr.indexOutOfRange ∧
    ∀ t : Team, (look_up_team P team_name).1 ≠ Except.ok t := by
  simp [look_up_team, h]

/-- Witness for C2: a concrete provider returning no team. -/
theorem look_up_team_empty_raises_witness :
    (look_up_team provEmpty "Nonexistent Team X").1 =
      Except.error PyErr.indexOutOfRange :=
  (look_up_team_empty_raises provEmpty "Nonexistent Team X" rfl).1

/-- C3: `find_games_by_team_id` returns the first game in list order whose
`home_id` or `away_id` equals `team_id` (it agrees with `List.find?` on that
predicate, any returned game matches and belongs to the list), and returns
`none` — not an error — when no game matches. -/
theorem find_games_by_team_id_spec (games : List Game) (team_id : Nat) :
    find_games_by_team_id games team_id =
      games.find? (fun g => g.home_id == team_id || g.away_id == team_id)
    ∧ (∀ g : Game, find_games_by_team_id games team_id = some g →
        (g.home_id = team_id ∨ g.away_id = team_id) ∧ g ∈ games)
    ∧ ((∀ g ∈ games, g.home_id ≠ team_id ∧ g.away_id ≠ team_id) →
        find_games_by_team_id games team_id = none) := by
  have hfind : find_games_by_team_id games team_id =
      games.find? (fun g => g.home_id == team_id || g.away_id == team_id) := by
    induction games with
    | nil => rfl
    | cons g rest ih =>
      cases hg : (g.home_id == team_id || g.away_id == team_id) <;>
        simp [find_games_by_team_id, List.find?, hg, ih]
  refine ⟨hfind, ?_, ?_⟩
  · intro g hsome
    rw [hfind] at hsome
    have hp := List.find?_some hsome
    have hm := List.mem_of_find?_eq_some hsome
    simp only [Bool.or_eq_true, beq_iff_eq] at hp
    exact ⟨hp, hm⟩
  · intro hnone
    rw [hfind, List.find?_eq_none]
    intro g hg
    simp only [Bool.or_eq_true, beq_iff_eq, not_or]
    exact ⟨(hnone g hg).1, (hnone g hg).2⟩

/-- Witness for C3: a list with one match and a list with none. -/
theorem find_games_by_team_id_spec_witness :
    find_games_by_team_id [gameA, gameB] 119 = some gameA ∧
    find_games_by_team_id [gameB] 119 = none :=
  ⟨by rw [(find_games_by_team_id_spec [gameA, gameB] 119).1]; rfl,
   (find_games_by_team_id_spec [gameB] 119).2.2
     (by intro g hg; simp [gameB] at hg; simp [hg, gameB])⟩

/-- C4: `get_daily_results` produces exactly one `DailySummary` per game of
the fetched schedule whose status is `"Final"`, in schedule order (it equals
the filter-then-project of the provider's sequence), and the projection's
`MVP` field is the game's `winning_pitcher` when present and `"N/A"` when
absent. -/
theorem get_daily_results_spec {DF PInfo Pace : Type}
    (P : Provider DF PInfo Pace) (today : String) (date : Option String) :
    (get_daily_results P today date).1 =
      ((P.schedule (date.getD today) (date.getD today)).filter
        (fun g => g.status == "Final")).map dailySummaryOf
    ∧ (∀ g : Game, ∀ p : String,
        g.winning_pitcher = some p → (dailySummaryOf g).MVP = p)
    ∧ (∀ g : Game, g.winning_pitcher = none → (dailySummaryOf g).MVP = "N/A") := by
  refine ⟨?_, ?_, ?_⟩
  · have hfold : ∀ (l : List Game) (acc : List DailySummary),
        l.foldl (fun results game =>
            if game.status == "Final" then results ++ [dailySummaryOf game]
            else results) acc
          = acc ++ (l.filter (fun g => g.status == "Final")).map dailySummaryOf := by
      intro l
      induction l with
      | nil => intro acc; simp
      | cons g rest ih =>
        intro acc
        rw [List.foldl_cons, ih, List.filter_cons]
        by_cases hg : g.status = "Final" <;> simp [hg]
    simpa [get_daily_results] using
      hfold (P.schedule (date.getD today) (date.getD today)) []
  · intro g p hp
    simp [dailySummaryOf, hp]
  · intro g hp
    simp [dailySummaryOf, hp]

/-- Witness for C4: the provider's day has one Final and one In-Progress
game; exactly the Final one is summarised, with its winning pitcher as MVP. -/
theorem get_daily_results_spec_witness :
    (get_daily_results provTest "2024-07-01" none).1 = [dailySummaryOf gameA] ∧
    (dailySummaryOf gameA).MVP = "Smith" ∧
    (dailySummaryOf gameB).MVP = "N/A" :=
  ⟨by rw [(get_daily_results_spec provTest "2024-07-01" none).1]; rfl,
   (get_daily_results_spec provTest "2024-07-01" none).2.1 gameA "Smith" rfl,
   (get_daily_results_spec provTest "2024-07-01" none).2.2 gameB rfl⟩

/-- C5: in `get_mlb_schedule` an absent start or end date defaults to the
current calendar date (`today`, the call-time date string), and the provider
is queried with the team filter exactly when a team id is supplied. -/
theorem get_mlb_schedule_spec {DF PInfo Pace : Type}
    (P : Provider DF PInfo Pace) (today : String)
    (start_date end_date : Option String) :
    (∀ t : Nat, get_mlb_schedule P today start_date end_date (some t) =
        (P.schedule_team t (start_date.getD today) (end_date.getD today),
         [POp.scheduleTeam t (start_date.getD today) (end_date.getD today)]))
    ∧ get_mlb_schedule P today start_date end_date none =
        (P.schedule (start_date.getD today) (end_date.getD today),
         [POp.schedule (start_date.getD today) (end_date.getD today)]) :=
  ⟨fun _ => rfl, rfl⟩

/-- C6: `player_id_lookup` dispatches solely on which names are present:
both names give an exact (`fuzzy=False`) lookup by both, only a last name
gives a fuzzy lookup keyed on it, only a first name gives a fuzzy lookup
with the first name passed positionally as the primary search term, and with
neither name it returns an absent result having made no provider call. -/
theorem player_id_lookup_dispatch {DF PInfo Pace : Type}
    (P : Provider DF PInfo Pace) (fz : Bool) :
    (∀ l f : String, player_id_lookup P (some l) (some f) fz =
        (some (P.playerid_lookup l (some f) false),
         [POp.playerIdLookup l (some f) false]))
    ∧ (∀ l : String, player_id_lookup P (some l) none fz =
        (some (P.playerid_lookup l none true), [POp.playerIdLookup l none true]))
    ∧ (∀ f : String, player_id_lookup P none (some f) fz =
        (some (P.playerid_lookup f none true), [POp.playerIdLookup f none true]))
    ∧ player_id_lookup P none none fz = (none, []) :=
  ⟨fun _ _ => rfl, fun _ => rfl, fun _ => rfl, rfl⟩

/-- C7: `get_player_info`, `get_game_highlights` and `game_pace` each return
the provider's result (with no diagnostic) when the provider call succeeds,
and when it fails they return an absent result together with a non-empty
diagnostic instead of propagating the error. -/
theorem best_effort_passthrough {DF PInfo Pace : Type}
    (P : Provider DF PInfo Pace) :
    (∀ (v : String) (r : PInfo),
        P.lookup_player v = Except.ok r → get_player_info P v = (some r, []))
    ∧ (∀ (v e : String), P.lookup_player v = Except.error e →
        (get_player_info P v).1 = none ∧ (get_player_info P v).2 ≠ [])
    ∧ (∀ (g : Nat) (h : List String),
        P.game_highlights g = Except.ok h → get_game_highlights P g = (some h, []))
    ∧ (∀ (g : Nat) (e : String), P.game_highlights g = Except.error e →
        (get_game_highlights P g).1 = none ∧ (get_game_highlights P g).2 ≠ [])
    ∧ (∀ (s : Nat) (r : Pace),
        P.game_pace s = Except.ok r → game_pace P s = (some r, []))
    ∧ (∀ (s : Nat) (e : String), P.game_pace s = Except.error e →
        (game_pace P s).1 = none ∧ (game_pace P s).2 ≠ []) := by
  refine ⟨?_, ?_, ?_, ?_, ?_, ?_⟩ <;> intro a b hab <;>
    simp [get_player_info, get_game_highlights, game_pace, hab]

/-- Witness for C7: a succeeding and a failing provider, for each of the
three wrapped tools. -/
theorem best_effort_passthrough_witness :
    get_player_info provTest "x" = (some "info", [])
    ∧ (get_player_info provFail "x").1 = none
    ∧ get_game_highlights provTest 745 = (some ["hl1"], [])
    ∧ (get_game_highlights provFail 745).1 = none
    ∧ game_pace provTest 2008 = (some "pace", [])
    ∧ (game_pace provFail 2008).1 = none :=
  ⟨(best_effort_passthrough provTest).1 "x" "info" rfl,
   ((best_effort_passthrough provFail).2.1 "x" "boom" rfl).1,
   (best_effort_passthrough provTest).2.2.1 745 ["hl1"] rfl,
   ((best_effort_passthrough provFail).2.2.2.1 745 "boom" rfl).1,
   (best_effort_passthrough provTest).2.2.2.2.1 2008 "pace" rfl,
   ((best_effort_passthrough provFail).2.2.2.2.2 2008 "boom" rfl).1⟩

/-- C8: when the game matcher finds a game for the resolved team and the two
aggregation calls succeed, `mlb_team_result` returns the composite of exactly
that game's scoring plays and highlights (each possibly empty); when the
matcher returns `none`, it returns an absent result and performs no
aggregator provider operation. -/
theorem mlb_team_result_aggregation {DF PInfo Pace : Type}
    (P : Provider DF PInfo Pace) (today team_name : String)
    (date : Option String) :
    (∀ (teamInfo : Team) (game : Game) (sp hl : List String),
        (look_up_team P team_name).1 = Except.ok teamInfo →
        find_games_by_team_id
          (get_mlb_schedule P today date date (some teamInfo.id)).1
          teamInfo.id = some game →
        P.game_scoring_plays game.game_id = Except.ok sp →
        P.game_highlights game.game_id = Except.ok hl →
        (mlb_team_result P today team_name date).1 =
          Except.ok (some { scoring_plays := sp, game_highlights := hl }))
    ∧ (∀ teamInfo : Team,
        (look_up_team P team_name).1 = Except.ok teamInfo →
        find_games_by_team_id
          (get_mlb_schedule P today date date (some teamInfo.id)).1
          teamInfo.id = none →
        (mlb_team_result P today team_name date).1 = Except.ok none
        ∧ ((mlb_team_result P today team_name date).2).all
            (fun op => !isAggregatorOp op) = true) := by
  constructor
  · intro teamInfo game sp hl hteam hfind hsp hhl
    cases hL : P.lookup_team team_name with
    | nil => simp [look_up_team, hL] at hteam
    | cons t rest =>
      have ht : t = teamInfo := by simpa [look_up_team, hL] using hteam
      subst ht
      simp [mlb_team_result, look_up_team, hL, hfind, hsp, hhl]
  · intro teamInfo hteam hfind
    cases hL : P.lookup_team team_name with
    | nil => simp [look_up_team, hL] at hteam
    | cons t rest =>
      have ht : t = teamInfo := by simpa [look_up_team, hL] using hteam
      subst ht
      have hfind2 : find_games_by_team_id
          (P.schedule_team t.id (date.getD today) (date.getD today)) t.id
            = none := by
        simpa [get_mlb_schedule] using hfind
      constructor <;>
        simp [mlb_team_result, look_up_team, hL, get_mlb_schedule, hfind2,
          isAggregatorOp]

/-- Witness for C8: a provider where the team's game is found (composite
returned) and one where the team has no scheduled game (absent result). -/
theorem mlb_team_result_aggregation_witness :
    (mlb_team_result provTest "2024-07-01" "Los Angeles Dodgers" none).1 =
      Except.ok (some { scoring_plays := ["play1"], game_highlights := ["hl1"] })
    ∧ (mlb_team_result provNoGame "2024-07-01" "Los Angeles Dodgers" none).1 =
      Except.ok none :=
  ⟨(mlb_team_result_aggregation provTest "2024-07-01" "Los Angeles Dodgers"
      none).1 teamA gameA ["play1"] ["hl1"] rfl rfl rfl rfl,
   ((mlb_team_result_aggregation provNoGame "2024-07-01" "Los Angeles Dodgers"
      none).2 teamA rfl rfl).1⟩

/-- C9: in `mlb_team_result` team resolution precedes any schedule fetch:
when the provider's team lookup is empty, the index-out-of-range error
propagates to the caller and no schedule provider operation is performed. -/
theorem mlb_team_result_fail_fast {DF PInfo Pace : Type}
    (P : Provider DF PInfo Pace) (today team_name : String)
    (date : Option String) (h : P.lookup_team team_name = []) :
    (mlb_team_result P today team_name date).1 =
      Except.error PyErr.indexOutOfRange
    ∧ ((mlb_team_result P today team_name date).2).all
        (fun op => !isScheduleOp op) = true := by
  simp [mlb_team_result, look_up_team, h, isScheduleOp]

/-- Witness for C9: a provider whose team lookup is empty. -/
theorem mlb_team_result_fail_fast_witness :
    (mlb_team_result provEmpty "2024-07-01" "Nonexistent Team X" none).1 =
      Except.error PyErr.indexOutOfRange :=
  (mlb_team_result_fail_fast provEmpty "2024-07-01" "Nonexistent Team X" none
    rfl).1

/-- C10: the `fuzzy` parameter of `player_id_lookup` has no effect: calls
differing only in `fuzzy` perform the same provider call and return the same
result, since each branch hardcodes its own fuzzy setting. -/
theorem player_id_lookup_fuzzy_no_effect {DF PInfo Pace : Type}
    (P : Provider DF PInfo Pace) (last_name first_name : Option String) :
    player_id_lookup P last_name first_name true =
      player_id_lookup P last_name first_name false := by
  cases last_name <;> cases first_name <;> rfl

end MLBStats
